import Mathlib

/-!
Verification of the colormel capture-to-render pipeline against its
natural-language specification.  Each section shallowly embeds the Rust
definitions it is about (file and function named in the comments) and proves
the corresponding claim.  Machine integers are modelled as `Int` (i32/HRESULT)
or `Nat` (u32/u64); `f32` values are modelled as exact rationals `ℚ` except for
the trigonometric host geometry in `src/visualize/grid.rs`, which is modelled
over `ℝ`.
-/

/- ## Data model: `RECT` and the `Rect` trait (src/gui/utils.rs) -/

/-- Windows `RECT`, fields are i32, modelled as `Int`. -/
structure RECT where
  left : Int
  top : Int
  right : Int
  bottom : Int
deriving DecidableEq

/-- `Rect::width` (src/gui/utils.rs): `self.right - self.left`. -/
def RECT.width (r : RECT) : Int := r.right - r.left

/-- `Rect::height` (src/gui/utils.rs): `self.bottom - self.top`. -/
def RECT.height (r : RECT) : Int := r.bottom - r.top

/-- `Rect::size` (src/gui/utils.rs): `(self.width(), self.height())`. -/
def RECT.size (r : RECT) : Int × Int := (r.width, r.height)

/- ## Data model: `Vec4` / `Matrix` (src/graphics/math.rs), over ℚ.
The Rust `Matrix` stores four columns of `Vec4`; `m[(row, col)]` reads
`m.0[col][row]`.  Named `Mat4` because Mathlib already owns `Matrix`. -/

/-- `Vec4` (src/graphics/math.rs): four f32 components, modelled as ℚ. -/
def Vec4 : Type := Fin 4 → ℚ

/-- `Vec4::new`. -/
def Vec4.mk4 (x y z w : ℚ) : Vec4 := ![x, y, z, w]

/-- `Vec4::dot`. -/
def Vec4.dot (a b : Vec4) : ℚ := a 0 * b 0 + a 1 * b 1 + a 2 * b 2 + a 3 * b 3

/-- `Matrix` (src/graphics/math.rs): an array of four column vectors. -/
def Mat4 : Type := Fin 4 → Vec4

/-- `Matrix::new(col0, col1, col2, col3)`. -/
def Mat4.mk (c0 c1 c2 c3 : Vec4) : Mat4 := ![c0, c1, c2, c3]

/-- `Matrix::identity`. -/
def Mat4.identity : Mat4 :=
  Mat4.mk (Vec4.mk4 1 0 0 0) (Vec4.mk4 0 1 0 0) (Vec4.mk4 0 0 1 0) (Vec4.mk4 0 0 0 1)

/-- `Matrix::scale(x, y, z)`. -/
def Mat4.scale (x y z : ℚ) : Mat4 :=
  Mat4.mk (Vec4.mk4 x 0 0 0) (Vec4.mk4 0 y 0 0) (Vec4.mk4 0 0 z 0) (Vec4.mk4 0 0 0 1)

/-- `Matrix::translate(x, y, z)`. -/
def Mat4.translate (x y z : ℚ) : Mat4 :=
  Mat4.mk (Vec4.mk4 1 0 0 x) (Vec4.mk4 0 1 0 y) (Vec4.mk4 0 0 1 z) (Vec4.mk4 0 0 0 1)

/-- `Matrix::row(i)`: `Vec4::new(self[(i,0)], self[(i,1)], self[(i,2)], self[(i,3)])`
where `self[(i,j)] = self.0[j][i]`. -/
def Mat4.row (m : Mat4) (i : Fin 4) : Vec4 :=
  Vec4.mk4 (m 0 i) (m 1 i) (m 2 i) (m 3 i)

/-- `Matrix::col(j)`. -/
def Mat4.col (m : Mat4) (j : Fin 4) : Vec4 := m j

/-- `Matrix::mul`: `m[(i,j)] = self.row(i).dot(other.col(j))`; the result is
stored column-major, so column `j`, component `i`. -/
def Mat4.mul (a b : Mat4) : Mat4 := fun j i => Vec4.dot (a.row i) (b.col j)

/-- `Matrix::as_4x3`: the first three columns, each with all 4 components. -/
def Mat4.as_4x3 (m : Mat4) : List ℚ :=
  [m 0 0, m 0 1, m 0 2, m 0 3, m 1 0, m 1 1, m 1 2, m 1 3, m 2 0, m 2 1, m 2 2, m 2 3]

/- ## Data model: `Config` (src/config.rs) -/

/-- Mode constants from src/config.rs. -/
def HISTOGRAM_MODE_RGB : Nat := 0
def HISTOGRAM_MODE_RGBL : Nat := 1
def HISTOGRAM_MODE_LUMA : Nat := 2
def HISTOGRAM_MODE_HUE : Nat := 3
def COLORCLOUD_MODE_RGB : Nat := 0
def COLORCLOUD_MODE_HSL : Nat := 1

/-- `Config` (src/config.rs): the per-iteration settings snapshot. -/
structure Config where
  enable_filter : Bool
  filter_mode : Nat
  filter_channels : List Bool
  enable_histogram : Bool
  histogram_mode : Nat
  histogram_scale : ℚ
  enable_color_cloud : Bool
  color_cloud_mode : Nat
  show_grid : Bool
  bg_opacity : ℚ
  window_rect : RECT
  rotation : Mat4

/-- A concrete settings snapshot used to instantiate the theorems: histogram
and color cloud enabled, default scale 0.5 and opacity 1.0, a 1280×720 window
at (100, 100), identity rotation. -/
def sampleConfig : Config :=
  { enable_filter := false
    filter_mode := 0
    filter_channels := [true, true, true, true]
    enable_histogram := true
    histogram_mode := 0
    histogram_scale := 1 / 2
    enable_color_cloud := true
    color_cloud_mode := 0
    show_grid := false
    bg_opacity := 1
    window_rect := ⟨100, 100, 1380, 820⟩
    rotation := Mat4.identity }

/-- `Config::projection_matrix` (src/config.rs):
`0.9 * width.min(height) as f32 / width.max(height) as f32`, then
`rotation * scale(s, s, 0.25) * translate(0, 0, 0.5)`. -/
def Config.projection_matrix (c : Config) : Mat4 :=
  let wh := c.window_rect.size
  let scale : ℚ := 9 / 10 * (min wh.1 wh.2 : ℤ) / (max wh.1 wh.2 : ℤ)
  (c.rotation.mul (Mat4.scale scale scale (1 / 4))).mul (Mat4.translate 0 0 (1 / 2))

/- ## C1: per-frame shader-visible descriptor budget
`Context::new` (src/graphics/context.rs:82) allocates the shader-visible SRV
heap with 16 descriptors.  Each frame's `Renderer` takes a fresh cursor over
that heap (`shader_visible_descriptor_heap.iter()`, src/graphics/renderer.rs),
and `Renderer::copy_descriptors` advances it once per copied descriptor,
panicking with "too many descriptors" when the cursor passes the end.  We model
the cursor and count every `copy_descriptors` call a frame can make. -/

/-- Capacity of the shader-visible SRV heap: `DescriptorHeap::new(&device, 16)`
in `Context::new` (src/graphics/context.rs:82). -/
def SHADER_VISIBLE_SRV_CAPACITY : Nat := 16

/-- The per-frame descriptor cursor (`DescriptorIter` position within the
shader-visible heap, src/graphics/core/descriptor.rs). -/
structure DescriptorCursor where
  copied : Nat
deriving DecidableEq

/-- `Renderer::copy_descriptors` (src/graphics/renderer.rs:200-222) for a slice
of `n` descriptors: takes `n` slots from the cursor, `none` models the
"too many descriptors" panic when the heap is exhausted. -/
def Renderer.copyDescriptors (n : Nat) (s : DescriptorCursor) : Option DescriptorCursor :=
  if s.copied + n ≤ SHADER_VISIBLE_SRV_CAPACITY then some ⟨s.copied + n⟩ else none

/-- `Renderer::set_shared_srv`: copies the one captured-frame SRV. -/
def Renderer.setSharedSrvCopies (s : DescriptorCursor) : Option DescriptorCursor :=
  Renderer.copyDescriptors 1 s

/-- `Filter::process` (src/visualize/filter.rs): when enabled it draws but
performs no descriptor-table copies (constants only). -/
def Filter.processCopies (c : Config) (s : DescriptorCursor) : Option DescriptorCursor :=
  if c.enable_filter then some s else some s

/-- `ColorCloud::process` (src/visualize/colorcloud.rs): when enabled,
`clear` copies 1 (`clear_uav(raw_uav)`), `compute` copies 1
(`set_uavs(&[uav])`), `draw` copies 1 (`set_graphics_srvs(&[srv])`). -/
def ColorCloud.processCopies (c : Config) (s : DescriptorCursor) : Option DescriptorCursor :=
  if c.enable_color_cloud then
    (Renderer.copyDescriptors 1 s).bind fun s =>
      (Renderer.copyDescriptors 1 s).bind fun s =>
        Renderer.copyDescriptors 1 s
  else some s

/-- `Grids::process` (src/visualize/grid.rs): draws vertex-buffer geometry with
root constants only, no descriptor-table copies. -/
def Grids.processCopies (c : Config) (s : DescriptorCursor) : Option DescriptorCursor :=
  if c.enable_color_cloud && c.show_grid then some s else some s

/-- `Histogram::process` (src/visualize/histogram.rs): when enabled, `clear`
copies 4 (one `clear_uav` per buffer), `compute` copies 4 (`set_uavs` of the
four UAVs), `draw` copies 4 (`set_graphics_srvs` of the four SRVs). -/
def Histogram.processCopies (c : Config) (s : DescriptorCursor) : Option DescriptorCursor :=
  if c.enable_histogram then
    ((Renderer.copyDescriptors 1 s).bind fun s =>
      (Renderer.copyDescriptors 1 s).bind fun s =>
        (Renderer.copyDescriptors 1 s).bind fun s =>
          Renderer.copyDescriptors 1 s).bind fun s =>
      (Renderer.copyDescriptors 4 s).bind fun s =>
        Renderer.copyDescriptors 4 s
  else some s

/-- One frame's descriptor-copy sequence from `Pipeline::process`
(src/visualize.rs:121-126): `set_shared_srv`, then Filter, Color Cloud, Grids,
Histogram, starting from a fresh cursor. -/
def Pipeline.processCopies (c : Config) : Option DescriptorCursor :=
  (Renderer.setSharedSrvCopies ⟨0⟩).bind fun s =>
    (Filter.processCopies c s).bind fun s =>
      (ColorCloud.processCopies c s).bind fun s =>
        (Grids.processCopies c s).bind fun s =>
          Histogram.processCopies c s

/-- C1: for every configuration, one frame's pass sequence copies at most 16
descriptors into the 16-slot per-frame shader-visible pool, so the
"too many descriptors" panic in `Renderer::copy_descriptors` is unreachable. -/
theorem descriptor_budget_never_exceeded (c : Config) :
    ∃ s : DescriptorCursor, Pipeline.processCopies c = some s ∧
      s.copied ≤ SHADER_VISIBLE_SRV_CAPACITY := by
  cases hf : c.enable_filter <;> cases hh : c.enable_histogram <;>
    cases hc : c.enable_color_cloud <;> cases hg : c.show_grid <;>
      simp [Pipeline.processCopies, Renderer.setSharedSrvCopies, Filter.processCopies,
        ColorCloud.processCopies, Grids.processCopies, Histogram.processCopies,
        Renderer.copyDescriptors, SHADER_VISIBLE_SRV_CAPACITY, hf, hh, hc, hg]

/- ## C2: timestamp report matching (`TimestampQueryPool::dump`,
src/graphics/core/query.rs:92-118)
`dump` iterates over the `heap.len()` (= 64) read-back timestamps, pairing
index `i` with `labels[i]` (a panic if `labels` is shorter), and keeps a
`HashMap<String, u64>`: a vacant entry stores the timestamp, an occupied entry
prints `time - t0` where `t0` is the stored (first) timestamp — the entry is
never updated or removed.  We model the map as `String → Option Nat`, the
report as the list of printed `(label, Δticks)` pairs, and the `labels[i]`
out-of-bounds panic as `none`. -/

/-- Timestamp query heap size: `let count = 64` in `TimestampQueryPool::new`
(src/graphics/core/query.rs:65). -/
def TIMESTAMP_QUERY_COUNT : Nat := 64

/-- The entry loop of `TimestampQueryPool::dump` over (label, timestamp) pairs
in recording order, with the `HashMap` state: occupied entries report
`time - t0` and keep `t0`; vacant entries store `time` and report nothing. -/
def dumpGo (seen : String → Option Nat) : List (String × Nat) → List (String × Nat)
  | [] => []
  | (l, t) :: rest =>
    match seen l with
    | some t0 => (l, t - t0) :: dumpGo seen rest
    | none => dumpGo (fun x => if x = l then some t else seen x) rest

/-- The `(label, Δticks)` pairs printed by the `dump` loop, starting from an
empty map. -/
def dumpReports (entries : List (String × Nat)) : List (String × Nat) :=
  dumpGo (fun _ => none) entries

/-- `TimestampQueryPool::dump` (src/graphics/core/query.rs:92-118): `times` is
the read-back of all `heap.len()` staging slots; each index is paired with
`labels[i]`, which panics (modelled `none`) when fewer labels than read slots
were recorded. -/
def TimestampQueryPool.dump (labels : List String) (times : List Nat) :
    Option (List (String × Nat)) :=
  if labels.length < times.length then none
  else some (dumpReports (labels.zip times))

/-- First timestamp recorded for label `l` within a prefix of entries. -/
def firstTime (l : String) : List (String × Nat) → Option Nat
  | [] => none
  | (l', t) :: rest => if l' = l then some t else firstTime l rest

/-- The specification-side report: walking the entries with their preceding
prefix, an occurrence whose label already appeared reports its timestamp minus
the FIRST timestamp of that label; a first occurrence reports nothing. -/
def specGo : List (String × Nat) → List (String × Nat) → List (String × Nat)
  | _, [] => []
  | pre, (l, t) :: rest =>
    match firstTime l pre with
    | some t0 => (l, t - t0) :: specGo (pre ++ [(l, t)]) rest
    | none => specGo (pre ++ [(l, t)]) rest

/-- Specification-side reports for a full entry list. -/
def specReports (entries : List (String × Nat)) : List (String × Nat) :=
  specGo [] entries

theorem firstTime_append (l : String) (pre : List (String × Nat)) (l' : String) (t : Nat) :
    firstTime l (pre ++ [(l', t)])
      = match firstTime l pre with
        | some t0 => some t0
        | none => if l' = l then some t else none := by
  induction pre with
  | nil => simp [firstTime]
  | cons e rest ih =>
    obtain ⟨l0, t0⟩ := e
    by_cases h : l0 = l <;> simp [firstTime, h, ih]

theorem dumpGo_eq_specGo (entries : List (String × Nat)) :
    ∀ (pre : List (String × Nat)) (seen : String → Option Nat),
      (∀ l, seen l = firstTime l pre) → dumpGo seen entries = specGo pre entries := by
  induction entries with
  | nil => intro pre seen _; simp [dumpGo, specGo]
  | cons e rest ih =>
    obtain ⟨l, t⟩ := e
    intro pre seen hseen
    simp only [dumpGo, specGo]
    rw [hseen l]
    cases h : firstTime l pre with
    | some t0 =>
      simp only []
      refine congrArg _ (ih (pre ++ [(l, t)]) seen ?_)
      intro l'
      rw [hseen l', firstTime_append]
      cases h' : firstTime l' pre with
      | some t1 => simp
      | none =>
        by_cases hl : l = l'
        · subst hl; rw [h] at h'; exact absurd h' (by simp)
        · simp [hl]
    | none =>
      refine ih (pre ++ [(l, t)]) _ ?_
      intro l'
      rw [firstTime_append]
      by_cases hl : l' = l
      · subst hl; simp [h]
      · have hl' : ¬l = l' := fun hh => hl hh.symm
        simp only [if_neg hl]
        rw [hseen l']
        cases h' : firstTime l' pre with
        | some t1 => simp
        | none => simp [hl']

/-- C2 (amended): the `dump` matching rule treats the first recorded occurrence
of a label as the start; the second AND every later occurrence each produce a
reported duration equal to that occurrence's timestamp minus the first
occurrence's (the stored start is never updated, so the second occurrence's
report is unaffected by later ones, but occurrences beyond the second are NOT
ignored — each prints an additional duration measured from the first). -/
theorem dump_reports_eq_first_occurrence_spec (entries : List (String × Nat)) :
    dumpReports entries = specReports entries :=
  dumpGo_eq_specGo entries [] (fun _ => none) (fun _ => rfl)

/-- C2 counterexample: a label recorded at every one of the 64 slots with
timestamps 0,1,…,63 yields 63 reported durations (1−0, 2−0, …, 63−0), not the
single duration (second − first) that the claim predicts when occurrences
beyond the second are ignored. -/
theorem dump_third_occurrence_reports_again :
    TimestampQueryPool.dump (List.replicate 64 "a") (List.range 64)
        = some ((List.range 63).map fun i => ("a", i + 1)) ∧
      TimestampQueryPool.dump (List.replicate 64 "a") (List.range 64)
        ≠ some [("a", 1)] := by
  constructor
  · rfl
  · intro h
    exact absurd h (by decide)

/- ## C4: `Duplication::duplicate` (src/graphics/duplicate.rs:75-111)
The DXGI calls are environment inputs: the outcome of `ReleaseFrame`, the
outcome of `AcquireNextFrame` (success carries `info.AccumulatedFrames` and the
acquired resource, failure an HRESULT), and the outcome of wrapping the
resource (`cast::<IDXGIResource1>()?` / `Resource::from_dxgi(..)?`).  HRESULTs
are modelled as `Int`. -/

/-- `DXGI_ERROR_WAIT_TIMEOUT` (0x887A0027). -/
def DXGI_ERROR_WAIT_TIMEOUT : Int := 0x887A0027

/-- `DXGI_ERROR_INVALID_CALL` (0x887A0001). -/
def DXGI_ERROR_INVALID_CALL : Int := 0x887A0001

/-- The capture source's owned state: `resource: Option<Resource>`
(src/graphics/duplicate.rs:19); frame resources carry an identity. -/
structure DuplState where
  resource : Option Nat
deriving DecidableEq

/-- Outcome of `self.dupl.ReleaseFrame()`. -/
inductive ReleaseOutcome where
  | ok
  | err (code : Int)
deriving DecidableEq

/-- Outcome of `self.dupl.AcquireNextFrame(1000, ..)`: success carries
`info.AccumulatedFrames` and the acquired frame's identity. -/
inductive AcquireOutcome where
  | ok (accumulatedFrames : Nat) (frameId : Nat)
  | err (code : Int)
deriving DecidableEq

/-- The acquire half of `Duplication::duplicate` (src/graphics/duplicate.rs:88-109):
success with 0 accumulated frames returns `Ok(None)`; otherwise the resource is
wrapped (`wrap` models the fallible `cast?`/`from_dxgi?` chain), an SRV is
created into the fixed slot, the frame is stored and `Ok(Some(srv))` returned;
`DXGI_ERROR_WAIT_TIMEOUT` returns `Ok(None)`; any other error is bailed. -/
def Duplication.acquire (s : DuplState) (acq : AcquireOutcome) (wrap : Except Int Unit) :
    Except Int (DuplState × Option Unit) :=
  match acq with
  | .ok n fid =>
    if n = 0 then .ok (s, none)
    else
      match wrap with
      | .error e => .error e
      | .ok _ => .ok ({ resource := some fid }, some ())
  | .err c => if c = DXGI_ERROR_WAIT_TIMEOUT then .ok (s, none) else .error c

/-- `Duplication::duplicate` (src/graphics/duplicate.rs:75-111): drops the
previous frame (`self.resource.take()`), calls `ReleaseFrame` — bailing on any
error other than `DXGI_ERROR_INVALID_CALL` — then acquires the next frame. -/
def Duplication.duplicate (s : DuplState) (rel : ReleaseOutcome) (acq : AcquireOutcome)
    (wrap : Except Int Unit) : Except Int (DuplState × Option Unit) :=
  let s1 : DuplState := { s with resource := none }
  match rel with
  | .err c => if c ≠ DXGI_ERROR_INVALID_CALL then .error c else Duplication.acquire s1 acq wrap
  | .ok => Duplication.acquire s1 acq wrap

/-- Whether the `ReleaseFrame` outcome lets `duplicate` proceed
(`Ok`, or the swallowed `DXGI_ERROR_INVALID_CALL`). -/
def releaseBenign : ReleaseOutcome → Bool
  | .ok => true
  | .err c => c = DXGI_ERROR_INVALID_CALL

/-- C4: `Duplication::duplicate` returns "no frame" (`None`) exactly when
acquisition succeeds with zero accumulated frames or fails with
`DXGI_ERROR_WAIT_TIMEOUT`; on success with at least one accumulated frame (and
successful resource wrapping) it returns the shader-read view (`Some`); every
other acquisition error is propagated as a fatal error. -/
theorem duplicate_outcomes (s : DuplState) (rel : ReleaseOutcome) (acq : AcquireOutcome)
    (wrap : Except Int Unit) (hrel : releaseBenign rel = true)
    (hwrap : wrap = Except.ok ()) :
    ((∃ d, Duplication.duplicate s rel acq wrap = Except.ok (d, none))
        ↔ ((∃ fid, acq = AcquireOutcome.ok 0 fid)
            ∨ acq = AcquireOutcome.err DXGI_ERROR_WAIT_TIMEOUT))
    ∧ ((∃ d v, Duplication.duplicate s rel acq wrap = Except.ok (d, some v))
        ↔ (∃ n fid, acq = AcquireOutcome.ok n fid ∧ 1 ≤ n))
    ∧ (∀ e, acq = AcquireOutcome.err e → e ≠ DXGI_ERROR_WAIT_TIMEOUT →
        Duplication.duplicate s rel acq wrap = Except.error e) := by
  subst hwrap
  have hcont : Duplication.duplicate s rel acq (Except.ok ())
      = Duplication.acquire { s with resource := none } acq (Except.ok ()) := by
    cases rel with
    | ok => rfl
    | err c =>
      simp only [releaseBenign, decide_eq_true_eq] at hrel
      simp [Duplication.duplicate, hrel]
  rw [hcont]
  refine ⟨?_, ?_, ?_⟩
  · cases acq with
    | ok n fid =>
      rcases Nat.eq_zero_or_pos n with hn | hn
      · subst hn; simp [Duplication.acquire]
      · simp [Duplication.acquire, Nat.pos_iff_ne_zero.mp hn,
          (Nat.pos_iff_ne_zero.mp hn : n ≠ 0)]
    | err c =>
      by_cases hc : c = DXGI_ERROR_WAIT_TIMEOUT <;> simp [Duplication.acquire, hc]
  · cases acq with
    | ok n fid =>
      rcases Nat.eq_zero_or_pos n with hn | hn
      · subst hn; simp [Duplication.acquire]
      · have hn' : ¬n = 0 := Nat.pos_iff_ne_zero.mp hn
        constructor
        · intro _; exact ⟨n, fid, rfl, hn⟩
        · intro _; exact ⟨⟨some fid⟩, (), by simp [Duplication.acquire, hn']⟩
    | err c =>
      by_cases hc : c = DXGI_ERROR_WAIT_TIMEOUT <;> simp [Duplication.acquire, hc]
  · intro e hacq hne
    subst hacq
    simp [Duplication.acquire, hne]

/-- Witness for C4: with a benign release and a successful acquisition carrying
2 accumulated frames, `duplicate` returns the shader-read view. -/
theorem duplicate_outcomes_witness :
    releaseBenign ReleaseOutcome.ok = true ∧
      (∃ d v, Duplication.duplicate ⟨some 3⟩ ReleaseOutcome.ok (AcquireOutcome.ok 2 9)
        (Except.ok ()) = Except.ok (d, some v)) :=
  ⟨rfl, (duplicate_outcomes ⟨some 3⟩ ReleaseOutcome.ok (AcquireOutcome.ok 2 9)
      (Except.ok ()) rfl rfl).2.1.mpr ⟨2, 9, rfl, by norm_num⟩⟩

/- ## C7 / C10: `Pipeline::process` (src/visualize.rs:106-131)
One pipeline iteration, driven by the environment outcomes of the DXGI calls.
The GPU-facing actions are recorded as an effect trace; the `Pipeline` struct's
fields are `ctx` (whose internals `create_renderer`/`execute` mutate, modelled
as a generation counter), the capture source `dupl`, and the four pass structs
(whose Rust fields are never reassigned by `process`). -/

/-- Rust `as u32` on an i32 value: two's-complement reinterpretation. -/
def u32_of_i32 (x : Int) : Nat := (x % 4294967296).toNat

/-- The observable actions of one `Pipeline::process` iteration. -/
inductive Effect where
  | sleep (ms : Nat)
  | createRenderer (width height : Nat) (clear_color : List ℚ)
  | setSharedSrv
  | runFilter
  | runColorCloud
  | runGrids
  | runHistogram
  | execute
deriving DecidableEq

/-- The `Pipeline` struct's mutable fields (src/visualize.rs:76-83): the
context (generation counter abstracting its swap-chain/fence/present
mutations), the capture source, and the four pass structs (inert `Nat`
stand-ins — `process` never reassigns their fields). -/
structure PipelineState where
  ctx : Nat
  dupl : DuplState
  colorcloud : Nat
  filter : Nat
  histogram : Nat
  grids : Nat
deriving DecidableEq

/-- `Pipeline::process` (src/visualize.rs:106-131): capture; on "no frame"
sleep 10 ms and return `Ok`; on a frame create a renderer at the configured
window size with clear color `[0, 0, 0, 1.0 - bg_opacity]`, bind the shared
SRV, run Filter, Color Cloud, Grids, Histogram, then execute. -/
def Pipeline.process (s : PipelineState) (c : Config) (rel : ReleaseOutcome)
    (acq : AcquireOutcome) (wrap : Except Int Unit) :
    Except Int (PipelineState × List Effect) :=
  match Duplication.duplicate s.dupl rel acq wrap with
  | .error e => .error e
  | .ok (d, none) => .ok ({ s with dupl := d }, [Effect.sleep 10])
  | .ok (d, some _) =>
    let opacity := 1 - c.bg_opacity
    .ok ({ s with dupl := d, ctx := s.ctx + 1 },
      [Effect.createRenderer (u32_of_i32 c.window_rect.width)
          (u32_of_i32 c.window_rect.height) [0, 0, 0, opacity],
        Effect.setSharedSrv, Effect.runFilter, Effect.runColorCloud, Effect.runGrids,
        Effect.runHistogram, Effect.execute])

/-- C7: when capture yields "no frame" (success with zero accumulated frames,
or the wait-timeout error), the iteration sleeps 10 ms and returns `Ok`: no
renderer is created, no pass runs, nothing is executed or presented, and no
pipeline field changes except the capture source's released previous frame
(`dupl.resource` becomes `none`). -/
theorem process_no_frame_only_sleeps (s : PipelineState) (c : Config)
    (rel : ReleaseOutcome) (acq : AcquireOutcome) (wrap : Except Int Unit)
    (hrel : releaseBenign rel = true)
    (hacq : (∃ fid, acq = AcquireOutcome.ok 0 fid)
        ∨ acq = AcquireOutcome.err DXGI_ERROR_WAIT_TIMEOUT) :
    Pipeline.process s c rel acq wrap
      = Except.ok ({ s with dupl := ⟨none⟩ }, [Effect.sleep 10]) := by
  have hdup : Duplication.duplicate s.dupl rel acq wrap
      = Except.ok (⟨none⟩, none) := by
    have hcont : Duplication.duplicate s.dupl rel acq wrap
        = Duplication.acquire { s.dupl with resource := none } acq wrap := by
      cases rel with
      | ok => rfl
      | err code =>
        simp only [releaseBenign, decide_eq_true_eq] at hrel
        simp [Duplication.duplicate, hrel]
    rw [hcont]
    rcases hacq with ⟨fid, hfid⟩ | htimeout
    · subst hfid; simp [Duplication.acquire]
    · subst htimeout; simp [Duplication.acquire]
  simp [Pipeline.process, hdup]

/-- Witness for C7: a concrete no-frame iteration (acquire succeeded with zero
accumulated frames) only sleeps and clears the held frame. -/
theorem process_no_frame_only_sleeps_witness :
    releaseBenign ReleaseOutcome.ok = true ∧
      ((∃ fid, AcquireOutcome.ok 0 7 = AcquireOutcome.ok 0 fid)
          ∨ AcquireOutcome.ok 0 7 = AcquireOutcome.err DXGI_ERROR_WAIT_TIMEOUT) ∧
      Pipeline.process ⟨4, ⟨some 5⟩, 1, 2, 3, 6⟩
          { enable_filter := true, filter_mode := 0,
            filter_channels := [true, true, true, true], enable_histogram := true,
            histogram_mode := 0, histogram_scale := 1 / 2, enable_color_cloud := true,
            color_cloud_mode := 0, show_grid := true, bg_opacity := 1,
            window_rect := ⟨100, 100, 1380, 820⟩, rotation := Mat4.identity }
          ReleaseOutcome.ok (AcquireOutcome.ok 0 7) (Except.ok ())
        = Except.ok (⟨4, ⟨none⟩, 1, 2, 3, 6⟩, [Effect.sleep 10]) :=
  ⟨rfl, Or.inl ⟨7, rfl⟩,
    process_no_frame_only_sleeps _ _ ReleaseOutcome.ok (AcquireOutcome.ok 0 7)
      (Except.ok ()) rfl (Or.inl ⟨7, rfl⟩)⟩

/-- C10: on every iteration that acquires a frame, the renderer is created with
clear color `[0, 0, 0, 1.0 - bg_opacity]` — the clear alpha is the complement
of the configured background opacity, not the opacity itself. -/
theorem process_clear_color_complements_opacity (s : PipelineState) (c : Config)
    (rel : ReleaseOutcome) (acq : AcquireOutcome) (wrap : Except Int Unit)
    (hrel : releaseBenign rel = true) (hwrap : wrap = Except.ok ())
    (hacq : ∃ n fid, acq = AcquireOutcome.ok n fid ∧ n ≠ 0) :
    ∃ s' rest, Pipeline.process s c rel acq wrap
      = Except.ok (s', Effect.createRenderer (u32_of_i32 c.window_rect.width)
          (u32_of_i32 c.window_rect.height) [0, 0, 0, 1 - c.bg_opacity] :: rest) := by
  obtain ⟨n, fid, hfid, hn⟩ := hacq
  subst hfid hwrap
  have hdup : Duplication.duplicate s.dupl rel (AcquireOutcome.ok n fid) (Except.ok ())
      = Except.ok (⟨some fid⟩, some ()) := by
    have hcont : Duplication.duplicate s.dupl rel (AcquireOutcome.ok n fid) (Except.ok ())
        = Duplication.acquire { s.dupl with resource := none } (AcquireOutcome.ok n fid)
            (Except.ok ()) := by
      cases rel with
      | ok => rfl
      | err code =>
        simp only [releaseBenign, decide_eq_true_eq] at hrel
        simp [Duplication.duplicate, hrel]
    rw [hcont]
    simp [Duplication.acquire, hn]
  refine ⟨{ s with dupl := ⟨some fid⟩, ctx := s.ctx + 1 },
    [Effect.setSharedSrv, Effect.runFilter, Effect.runColorCloud, Effect.runGrids,
      Effect.runHistogram, Effect.execute], ?_⟩
  simp [Pipeline.process, hdup]

/-- Witness for C10: with the default background opacity 1.0, the renderer is
cleared with alpha 0 (the complement), as the claim states. -/
theorem process_clear_color_witness :
    releaseBenign ReleaseOutcome.ok = true ∧
      (∃ n fid, AcquireOutcome.ok 1 7 = AcquireOutcome.ok n fid ∧ n ≠ 0) ∧
      (∃ s' rest, Pipeline.process ⟨4, ⟨some 5⟩, 1, 2, 3, 6⟩
          { enable_filter := true, filter_mode := 0,
            filter_channels := [true, true, true, true], enable_histogram := true,
            histogram_mode := 0, histogram_scale := 1 / 2, enable_color_cloud := true,
            color_cloud_mode := 0, show_grid := true, bg_opacity := 1,
            window_rect := ⟨100, 100, 1380, 820⟩, rotation := Mat4.identity }
          ReleaseOutcome.ok (AcquireOutcome.ok 1 7) (Except.ok ())
        = Except.ok (s', Effect.createRenderer (u32_of_i32 (1380 - 100))
            (u32_of_i32 (820 - 100)) [0, 0, 0, 1 - 1] :: rest)) :=
  ⟨rfl, ⟨1, 7, rfl, one_ne_zero⟩,
    process_clear_color_complements_opacity _ _ ReleaseOutcome.ok (AcquireOutcome.ok 1 7)
      (Except.ok ()) rfl rfl ⟨1, 7, rfl, one_ne_zero⟩⟩

/- ## C9: `Visualizer::terminate` (src/visualize.rs:61-67) and
`impl Drop for Visualizer` (src/visualize.rs:70-74). -/

/-- The `Visualizer` struct (src/visualize.rs:28-31): the shared stop flag and
the joinable thread handle. -/
structure VisualizerState where
  keep_running : Bool
  join_handle : Option Nat
deriving DecidableEq

/-- `Visualizer::terminate` (src/visualize.rs:61-67): stores `false` into the
stop flag, then `take`s the join handle and joins it if present.  The returned
`Bool` records whether a (blocking) join was performed. -/
def Visualizer.terminate (s : VisualizerState) : VisualizerState × Bool :=
  let s1 : VisualizerState := { s with keep_running := false }
  match s1.join_handle with
  | some _ => ({ s1 with join_handle := none }, true)
  | none => (s1, false)

/-- `impl Drop for Visualizer` (src/visualize.rs:70-74): calls `terminate`. -/
def Visualizer.drop (s : VisualizerState) : VisualizerState :=
  (Visualizer.terminate s).1

/-- C9: `terminate` is idempotent — the first call clears the stop flag and
takes the join handle; any later call (including the drop-invoked one) sees the
already-taken handle, performs no join (does not block), and leaves the state
unchanged. -/
theorem terminate_idempotent (s : VisualizerState) :
    (Visualizer.terminate (Visualizer.terminate s).1).1 = (Visualizer.terminate s).1
    ∧ (Visualizer.terminate (Visualizer.terminate s).1).2 = false
    ∧ Visualizer.drop (Visualizer.terminate s).1 = (Visualizer.terminate s).1
    ∧ (Visualizer.terminate s).1.keep_running = false
    ∧ (Visualizer.terminate s).1.join_handle = none := by
  obtain ⟨k, h⟩ := s
  cases h <;> simp [Visualizer.terminate, Visualizer.drop]

/- ## C8: `SwapChain::resize` (src/graphics/core/swap_chain.rs:112-136)
The model tracks resource identities (a fresh-id allocator stands in for
re-allocation), the size the color/depth buffers were actually allocated at,
and the struct's stored `size` field.  Note the Rust `resize` body never
assigns `self.size`. -/

/-- The `SwapChain` struct's model state (src/graphics/core/swap_chain.rs:25-40). -/
structure SwapChainModel where
  bufferIds : List Nat
  bufferSize : Int × Int
  depthId : Nat
  depthSize : Int × Int
  size : Int × Int
  nextId : Nat
deriving DecidableEq

/-- `SwapChain::new` (src/graphics/core/swap_chain.rs:45-91): two color buffers
and a depth buffer at the given size; `size` is initialised to it. -/
def SwapChain.new (width height : Int) : SwapChainModel :=
  { bufferIds := [0, 1]
    bufferSize := (width, height)
    depthId := 2
    depthSize := (width, height)
    size := (width, height)
    nextId := 3 }

/-- `SwapChain::resize` (src/graphics/core/swap_chain.rs:112-136): if
`(width, height) == self.size` return immediately; otherwise drop the buffers,
`ResizeBuffers(0, width, height, ..)`, re-fetch the buffers, recreate the RTVs,
recreate the depth buffer at the new size and its DSV.  The body never writes
`self.size`. -/
def SwapChain.resize (s : SwapChainModel) (width height : Int) : SwapChainModel :=
  if (width, height) = s.size then s
  else
    { bufferIds := [s.nextId, s.nextId + 1]
      bufferSize := (width, height)
      depthId := s.nextId + 2
      depthSize := (width, height)
      size := s.size
      nextId := s.nextId + 3 }

/-- C8 (code bug): resizing a 640×480 swap chain to 1024×768 reallocates the
color/depth buffers at 1024×768 but leaves the stored `size` field at
(640, 480) — the Rust body never updates `self.size` — so the subsequent call
back to 640×480 compares equal to the stale stored size and is treated as a
no-op, leaving the buffers allocated at 1024×768; the claim's "updates the
stored size" is what the comparison logic plainly intends but the code omits. -/
theorem swapChain_resize_keeps_stale_size :
    (SwapChain.resize (SwapChain.new 640 480) 1024 768).bufferSize = (1024, 768)
    ∧ (SwapChain.resize (SwapChain.new 640 480) 1024 768).size = (640, 480)
    ∧ SwapChain.resize (SwapChain.resize (SwapChain.new 640 480) 1024 768) 640 480
        = SwapChain.resize (SwapChain.new 640 480) 1024 768
    ∧ (SwapChain.resize (SwapChain.resize (SwapChain.new 640 480) 1024 768) 640 480).bufferSize
        ≠ (640, 480) := by
  refine ⟨rfl, rfl, ?_, ?_⟩ <;> decide

/- ## C5: Color Cloud draw constants (`ColorCloud::draw`,
src/visualize/colorcloud.rs:104-139). -/

/-- The root-constant block of `ColorCloud::draw` (`struct Params`,
src/visualize/colorcloud.rs:119-125). -/
structure ColorCloudDrawParams where
  projection : List ℚ
  min_count : Nat
  inv_max_count : ℚ
  color_space : Nat

/-- The constants `ColorCloud::draw` uploads (src/visualize/colorcloud.rs:114-132):
`min_count = 0`, `max_count = width * height / 9` in i32 (truncating) division,
`inv_max_count = 1.0 / (max_count as f32)`, projection and color space from the
configuration. -/
def ColorCloud.drawParams (c : Config) : ColorCloudDrawParams :=
  let width := c.window_rect.width
  let height := c.window_rect.height
  let min_count : Nat := 0
  let max_count : Int := Int.tdiv (width * height) 9
  { projection := c.projection_matrix.as_4x3
    min_count := min_count
    inv_max_count := 1 / (max_count : ℚ)
    color_space := c.color_cloud_mode }

/-- C5: whenever the color cloud is enabled, the draw constants have minimum
visible count 0 and inverse maximum count `1 / (width*height/9)` with the
width/height of the configured window rectangle and truncating integer
division. -/
theorem colorCloud_draw_constants (c : Config) (_h : c.enable_color_cloud = true) :
    (ColorCloud.drawParams c).min_count = 0
    ∧ (ColorCloud.drawParams c).inv_max_count
        = 1 / ((Int.tdiv (c.window_rect.width * c.window_rect.height) 9 : Int) : ℚ) :=
  ⟨rfl, rfl⟩

/-- Witness for C5 at a 1280×720 window with the color cloud enabled:
`max_count = 1280*720/9 = 102400`, so the inverse maximum count is 1/102400. -/
theorem colorCloud_draw_constants_witness :
    sampleConfig.enable_color_cloud = true
    ∧ ((ColorCloud.drawParams sampleConfig).min_count = 0
      ∧ (ColorCloud.drawParams sampleConfig).inv_max_count
        = 1 / ((Int.tdiv (sampleConfig.window_rect.width
            * sampleConfig.window_rect.height) 9 : Int) : ℚ)) :=
  ⟨rfl, colorCloud_draw_constants sampleConfig rfl⟩

/- ## C6: Histogram draw scale (`Histogram::draw`,
src/visualize/histogram.rs:131-191). -/

/-- The root-constant block of `Histogram::draw` (`struct Params`,
src/visualize/histogram.rs:149-154). -/
structure HistogramDrawParams where
  colors : List (List ℚ)
  mode : Nat
  scale : ℚ

/-- The constants `Histogram::draw` uploads (src/visualize/histogram.rs:156-173):
`scale = histogram_scale * (0.20 / (width*height)  if hue mode
                            else 10.0 / (width*height))`. -/
def Histogram.drawParams (c : Config) : HistogramDrawParams :=
  let wh := c.window_rect.size
  let scale : ℚ := c.histogram_scale *
    (if c.histogram_mode = HISTOGRAM_MODE_HUE then (1 / 5) / ((wh.1 * wh.2 : Int) : ℚ)
     else 10 / ((wh.1 * wh.2 : Int) : ℚ))
  { colors := [[0, 1, 0, 4 / 5], [1, 0, 0, 4 / 5], [0, 0, 1, 4 / 5], [1, 1, 1, 4 / 5]]
    mode := c.histogram_mode
    scale := scale }

/-- C6: whenever the histogram is enabled, the vertical scale constant equals
`histogram_scale * k / (width * height)` with `k = 0.20` in hue mode and
`k = 10.0` in every other mode, the width/height being those of the configured
window rectangle. -/
theorem histogram_draw_scale (c : Config) (_h : c.enable_histogram = true) :
    (Histogram.drawParams c).scale
      = c.histogram_scale
          * (if c.histogram_mode = HISTOGRAM_MODE_HUE then (1 / 5 : ℚ) else 10)
          / ((c.window_rect.width * c.window_rect.height : Int) : ℚ) := by
  by_cases hm : c.histogram_mode = HISTOGRAM_MODE_HUE <;>
    simp [Histogram.drawParams, RECT.size, hm, mul_div_assoc]

/-- Witness for C6 at a 1280×720 window in RGB mode with scale setting 1/2:
the uploaded scale equals `(1/2) * 10 / 921600`. -/
theorem histogram_draw_scale_witness :
    sampleConfig.enable_histogram = true
    ∧ (Histogram.drawParams sampleConfig).scale
      = sampleConfig.histogram_scale
          * (if sampleConfig.histogram_mode = HISTOGRAM_MODE_HUE then (1 / 5 : ℚ) else 10)
          / ((sampleConfig.window_rect.width * sampleConfig.window_rect.height : Int) : ℚ) :=
  ⟨rfl, histogram_draw_scale sampleConfig rfl⟩

/- ## C3: host HSL→position mapping (`hsl_to_position`,
src/visualize/grid.rs:128-148)
f32 trigonometry/sqrt modelled over ℝ. -/

/-- `hsl_to_position` (src/visualize/grid.rs:128-148): angle from hue, signed
lightness `l = 2*lightness - 1`, then `a = s + |l|`, `b = sqrt(s*s + l*l)`, and
if `b > 0` both `s` and `l` are multiplied by `n = a / b`; the result is
`[x, y, -z]` with `x = cos(h)*s`, `z = sin(h)*s`, `y = l`. -/
noncomputable def hsl_to_position (hue saturation lightness : ℝ) : ℝ × ℝ × ℝ :=
  let h := 2 * Real.pi * hue
  let s := saturation
  let l := 2 * lightness - 1
  let a := s + |l|
  let b := Real.sqrt (s * s + l * l)
  let n := a / b
  let s1 := if 0 < b then s * n else s
  let l1 := if 0 < b then l * n else l
  let y := l1
  let x := s1 * Real.cos h
  let z := s1 * Real.sin h
  (x, y, -z)

/-- The normalization block of `hsl_to_position` in isolation: the pair `(s, l)`
after the conditional rescaling by `n = (s + |l|) / sqrt(s*s + l*l)`. -/
noncomputable def squircle_scaled (s l : ℝ) : ℝ × ℝ :=
  let a := s + |l|
  let b := Real.sqrt (s * s + l * l)
  if 0 < b then (s * (a / b), l * (a / b)) else (s, l)

theorem squircle_scaled_norm (s l : ℝ) (hs : 0 ≤ s) :
    Real.sqrt ((squircle_scaled s l).1 ^ 2 + (squircle_scaled s l).2 ^ 2)
      = max (s + |l|) (Real.sqrt (s * s + l * l)) := by
  have ha : 0 ≤ s + |l| := add_nonneg hs (abs_nonneg l)
  have hbnn : 0 ≤ Real.sqrt (s * s + l * l) := Real.sqrt_nonneg _
  have hba : Real.sqrt (s * s + l * l) ≤ s + |l| := by
    have hineq : s * s + l * l ≤ (s + |l|) ^ 2 := by
      nlinarith [abs_nonneg l, abs_mul_abs_self l, mul_nonneg hs (abs_nonneg l)]
    calc Real.sqrt (s * s + l * l) ≤ Real.sqrt ((s + |l|) ^ 2) := Real.sqrt_le_sqrt hineq
      _ = s + |l| := Real.sqrt_sq ha
  have hnn : (0 : ℝ) ≤ s * s + l * l :=
    add_nonneg (mul_self_nonneg s) (mul_self_nonneg l)
  by_cases hb : 0 < Real.sqrt (s * s + l * l)
  · have hpos : 0 < s * s + l * l := Real.sqrt_pos.mp hb
    have h1 : Real.sqrt (s * s + l * l) ^ 2 = s * s + l * l := Real.sq_sqrt hnn
    have key : (squircle_scaled s l).1 ^ 2 + (squircle_scaled s l).2 ^ 2
        = (s + |l|) ^ 2 := by
      simp only [squircle_scaled, if_pos hb]
      have expand : (s * ((s + |l|) / Real.sqrt (s * s + l * l))) ^ 2
            + (l * ((s + |l|) / Real.sqrt (s * s + l * l))) ^ 2
          = (s * s + l * l) * ((s + |l|) ^ 2 / Real.sqrt (s * s + l * l) ^ 2) := by
        ring
      rw [expand, h1, mul_div_cancel₀ _ (ne_of_gt hpos)]
    rw [key, Real.sqrt_sq ha, max_eq_left hba]
  · have hb0 : Real.sqrt (s * s + l * l) = 0 := le_antisymm (not_lt.mp hb) hbnn
    have hsl : s * s + l * l ≤ 0 := Real.sqrt_eq_zero'.mp hb0
    have hs0 : s = 0 := by nlinarith [mul_self_nonneg s, mul_self_nonneg l]
    have hl0 : l = 0 := by nlinarith [mul_self_nonneg s, mul_self_nonneg l]
    subst hs0 hl0
    simp [squircle_scaled]

theorem hsl_to_position_via_squircle (hue saturation lightness : ℝ) :
    hsl_to_position hue saturation lightness
      = ((squircle_scaled saturation (2 * lightness - 1)).1 * Real.cos (2 * Real.pi * hue),
          (squircle_scaled saturation (2 * lightness - 1)).2,
          -((squircle_scaled saturation (2 * lightness - 1)).1
              * Real.sin (2 * Real.pi * hue))) := by
  by_cases hb : 0 < Real.sqrt (saturation * saturation
      + (2 * lightness - 1) * (2 * lightness - 1)) <;>
    simp [hsl_to_position, squircle_scaled, hb]

/-- C3: the host HSL→position mapping converts lightness to signed range
`l = 2*lightness - 1`, rescales the pair `(s, l)` so that its Euclidean norm
becomes `max(s + |l|, sqrt(s² + l²))`, and only then projects to the cylinder
(hue gives the angle); consequently every fully saturated / extreme-lightness
input with `s + |l| = 1` lands exactly on the rim (unit distance from the
origin). -/
theorem hsl_to_position_squircle (hue saturation lightness : ℝ)
    (hs : 0 ≤ saturation) :
    hsl_to_position hue saturation lightness
      = ((squircle_scaled saturation (2 * lightness - 1)).1 * Real.cos (2 * Real.pi * hue),
          (squircle_scaled saturation (2 * lightness - 1)).2,
          -((squircle_scaled saturation (2 * lightness - 1)).1
              * Real.sin (2 * Real.pi * hue)))
    ∧ Real.sqrt ((squircle_scaled saturation (2 * lightness - 1)).1 ^ 2
          + (squircle_scaled saturation (2 * lightness - 1)).2 ^ 2)
        = max (saturation + |2 * lightness - 1|)
            (Real.sqrt (saturation * saturation + (2 * lightness - 1) * (2 * lightness - 1)))
    ∧ (saturation + |2 * lightness - 1| = 1 →
        (hsl_to_position hue saturation lightness).1 ^ 2
          + (hsl_to_position hue saturation lightness).2.1 ^ 2
          + (hsl_to_position hue saturation lightness).2.2 ^ 2 = 1) := by
  refine ⟨hsl_to_position_via_squircle hue saturation lightness,
    squircle_scaled_norm saturation (2 * lightness - 1) hs, ?_⟩
  intro h1
  have hba : Real.sqrt (saturation * saturation + (2 * lightness - 1) * (2 * lightness - 1))
      ≤ saturation + |2 * lightness - 1| := by
    have hineq : saturation * saturation + (2 * lightness - 1) * (2 * lightness - 1)
        ≤ (saturation + |2 * lightness - 1|) ^ 2 := by
      nlinarith [abs_nonneg (2 * lightness - 1), abs_mul_abs_self (2 * lightness - 1),
        mul_nonneg hs (abs_nonneg (2 * lightness - 1))]
    calc Real.sqrt (saturation * saturation + (2 * lightness - 1) * (2 * lightness - 1))
        ≤ Real.sqrt ((saturation + |2 * lightness - 1|) ^ 2) := Real.sqrt_le_sqrt hineq
      _ = saturation + |2 * lightness - 1| :=
        Real.sqrt_sq (add_nonneg hs (abs_nonneg (2 * lightness - 1)))
  have hnorm := squircle_scaled_norm saturation (2 * lightness - 1) hs
  rw [max_eq_left hba, h1] at hnorm
  have hsum : (squircle_scaled saturation (2 * lightness - 1)).1 ^ 2
      + (squircle_scaled saturation (2 * lightness - 1)).2 ^ 2 = 1 := by
    have hge : 0 ≤ (squircle_scaled saturation (2 * lightness - 1)).1 ^ 2
        + (squircle_scaled saturation (2 * lightness - 1)).2 ^ 2 := by positivity
    nlinarith [Real.sq_sqrt hge, hnorm]
  rw [hsl_to_position_via_squircle hue saturation lightness]
  have htrig : Real.sin (2 * Real.pi * hue) ^ 2 + Real.cos (2 * Real.pi * hue) ^ 2 = 1 :=
    Real.sin_sq_add_cos_sq _
  simp only []
  nlinarith [hsum, htrig, sq_nonneg ((squircle_scaled saturation (2 * lightness - 1)).1)]

/-- Witness for C3: the equator input hue 0, saturation 1, lightness ½
(`s + |l| = 1`) maps to a point at unit distance from the origin, matching the
spec's equator round-trip property. -/
theorem hsl_to_position_squircle_witness :
    ((0 : ℝ) ≤ 1)
    ∧ ((1 : ℝ) + |2 * (1 / 2 : ℝ) - 1| = 1)
    ∧ ((hsl_to_position 0 1 (1 / 2)).1 ^ 2 + (hsl_to_position 0 1 (1 / 2)).2.1 ^ 2
        + (hsl_to_position 0 1 (1 / 2)).2.2 ^ 2 = 1) :=
  ⟨by norm_num, by norm_num,
    (hsl_to_position_squircle 0 1 (1 / 2) (by norm_num)).2.2 (by norm_num)⟩
